import Mathlib

/-!
Shallow embedding of the TCS3472x color sensor driver (src/src/tcs3472x.c and
src/include/tcs3472x.h).

Modelling conventions:
- C `uint8_t` / `uint16_t` values are `ℕ` with explicit `% 256` / `% 65536`
  where the C code narrows.
- C `float` arithmetic is modelled by exact rational arithmetic over `ℚ`
  (the driver only multiplies/divides small decimal constants, and every
  claim-relevant comparison is far from a float rounding boundary; in
  particular `2.4f * 256` equals the `float` literal `614.4f` exactly, so the
  saturation guard behaves identically in both models).
- The I2C HAL is an external collaborator: each driver operation takes the
  outcome of its HAL calls as parameters (`Bool` for a write succeeding,
  `Option` for a read: `none` models a failed read, `some bytes` a successful
  one).  Per the HAL contract a failed read leaves the zero-initialized local
  buffer untouched, which the model reflects by decoding zeros on `none`.
- Each operation returns an `OpResult`: its C return value plus an
  operational summary of the transaction (bytes written on the bus, lengths
  of reads issued, error messages logged via LOG_ERROR).
-/

/-- Register addresses from src/include/tcs3472x.h. -/
def ENABLE_REGISTER : ℕ := 0x00

/-- ATIME register address (RGBC integration time). -/
def ATIME_REGISTER : ℕ := 0x01

/-- Device ID register address. -/
def ID_REGISTER : ℕ := 0x12

/-- Clear data low byte register address. -/
def CDATAL_REGISTER : ℕ := 0x14

/-- Red data low byte register address. -/
def RDATAL_REGISTER : ℕ := 0x16

/-- Green data low byte register address. -/
def GDATAL_REGISTER : ℕ := 0x18

/-- Blue data low byte register address. -/
def BDATAL_REGISTER : ℕ := 0x1A

/-- Command type `REPEAT_BYTE = 0b00` from the `command_type_t` enum. -/
def REPEAT_BYTE : ℕ := 0

/-- Command type `AUTO_INCREMENT = 0b01` from the `command_type_t` enum. -/
def AUTO_INCREMENT : ℕ := 1

/-- Command type `SPECIAL_FUNCTION = 0b11` from the `command_type_t` enum. -/
def SPECIAL_FUNCTION : ℕ := 3

/-- Constant `INTEGRATION_TIME_MULTIPLIER = 2.4f` from tcs3472x.c. -/
def INTEGRATION_TIME_MULTIPLIER : ℚ := 2.4

/-- Constant `INTEGRATION_TIME_CONST = 256` from tcs3472x.c. -/
def INTEGRATION_TIME_CONST : ℕ := 256

/-- Constant `INTEGRATION_TIME_SPECIAL_CASE = 700` from tcs3472x.c. -/
def INTEGRATION_TIME_SPECIAL_CASE : ℕ := 700

/-- Embedding of `_build_command_register(reg_address, cmd_type)`.  The C
function packs the `command_register_t` bitfield: `addr_sf` in bits 0-4,
`type` in bits 5-6, `cmd = 1` in bit 7, and returns the packed byte.  The
bitfield stores each field modulo its width, and the packed byte is the sum
of the shifted fields. -/
def _build_command_register (reg_address cmd_type : ℕ) : ℕ :=
  (reg_address % 32) + (cmd_type % 4) * 32 + 1 * 128

/-- Embedding of `_write_command_register(reg_address, cmd_type)`: builds the
command byte and writes it over I2C, logging on write failure.  Returns the
byte written together with the log lines produced. -/
def _write_command_register (reg_address cmd_type : ℕ) (writeOk : Bool) :
    ℕ × List String :=
  (_build_command_register reg_address cmd_type,
   if writeOk then [] else ["Failed to write command register."])

/-- Truncation toward zero of a rational, as performed by a C float-to-integer
conversion.  (For the in-range values the driver produces this is `Int.floor`;
the negative case is included only to make the function total.) -/
def truncTowardZero (x : ℚ) : ℤ :=
  if x < 0 then -⌊-x⌋ else ⌊x⌋

/-- Narrowing of a rational to a `uint8_t` as in the C cast on line 115 of
tcs3472x.c.  C leaves out-of-range float-to-uint8 conversions undefined; the
model totalizes with `Int.toNat` and `% 256`, and every claim stays in the
defined range. -/
def floatToUInt8 (x : ℚ) : ℕ :=
  (truncTowardZero x).toNat % 256

/-- Operational result of one driver operation: the C return value, the bytes
written on the I2C bus (command frame first), the lengths of the reads
issued, and the LOG_ERROR messages produced. -/
structure OpResult (α : Type) where
  ret : α
  written : List ℕ
  readLens : List ℕ
  logs : List String
  deriving Repr, DecidableEq

/-- Little-endian assembly `(data[1] << 8) | data[0]` of two buffer bytes into
a `uint16_t`, as on lines 163-169 and 214 of tcs3472x.c (the `% 65536` is the
narrowing assignment to `uint16_t combined_data`). -/
def combineLE (lo hi : ℕ) : ℕ :=
  ((hi <<< 8) ||| lo) % 65536

/-- Contents of a zero-initialized local read buffer after a HAL read: on
success byte `i` of the returned data (a `uint8_t`), on failure the buffer
keeps its zero initializer. -/
def readBuffer (readResult : Option (List ℕ)) (i : ℕ) : ℕ :=
  match readResult with
  | none => 0
  | some bs => bs.getD i 0 % 256

/-- Byte written to the ENABLE register by `tcs3472x_init`.  The local
`enable_register_t enable_register` union is declared without an initializer,
so its byte starts as indeterminate stack content `initial`; the function then
sets the bitfields `aien` (bit 4), `wen` (bit 3), `aen` (bit 1) and `pon`
(bit 0) to 1 and leaves the reserved bits (bit 2 and bits 5-7) untouched. -/
def tcs3472x_init_enable_byte (initial : ℕ) : ℕ :=
  (((initial % 256 ||| 1 <<< 4) ||| 1 <<< 3) ||| 1 <<< 1) ||| 1 <<< 0

/-- Embedding of `tcs3472x_init`: frames the ENABLE register with repeat
addressing, then writes the enable byte; both write failures are logged and
otherwise ignored. -/
def tcs3472x_init (initial : ℕ) (cmdWriteOk enWriteOk : Bool) : OpResult Unit :=
  let cw := _write_command_register ENABLE_REGISTER REPEAT_BYTE cmdWriteOk
  { ret := ()
    written := [cw.1, tcs3472x_init_enable_byte initial]
    readLens := []
    logs := cw.2 ++
      if enWriteOk then [] else ["Failed to initialize TCS3472x sensor (set PON)."] }

/-- Embedding of `tcs3472x_get_enable`: frames the ENABLE register with repeat
addressing, reads one byte; a failed read logs and returns 0. -/
def tcs3472x_get_enable (cmdWriteOk : Bool) (readResult : Option ℕ) : OpResult ℕ :=
  let cw := _write_command_register ENABLE_REGISTER REPEAT_BYTE cmdWriteOk
  match readResult with
  | none =>
    { ret := 0, written := [cw.1], readLens := [1],
      logs := cw.2 ++ ["Failed to read ENABLE register."] }
  | some b =>
    { ret := b % 256, written := [cw.1], readLens := [1], logs := cw.2 }

/-- Embedding of `tcs3472x_get_id`: frames the ID register with repeat
addressing, reads one byte; a failed read logs and returns 0. -/
def tcs3472x_get_id (cmdWriteOk : Bool) (readResult : Option ℕ) : OpResult ℕ :=
  let cw := _write_command_register ID_REGISTER REPEAT_BYTE cmdWriteOk
  match readResult with
  | none =>
    { ret := 0, written := [cw.1], readLens := [1],
      logs := cw.2 ++ ["Failed to read ID register."] }
  | some b =>
    { ret := b % 256, written := [cw.1], readLens := [1], logs := cw.2 }

/-- Embedding of `_calc_atime_in_milliseconds(atime)`: the C expression
`(INTEGRATION_TIME_CONST - atime) * INTEGRATION_TIME_MULTIPLIER` with the
subtraction performed on promoted integers and the product in float. -/
def _calc_atime_in_milliseconds (atime : ℕ) : ℚ :=
  (((INTEGRATION_TIME_CONST : ℤ) - (atime : ℤ) : ℤ) : ℚ) * INTEGRATION_TIME_MULTIPLIER

/-- Maximum integration time `MAX_INTEGRATION_TIME_ALLOWED` from
`tcs3472x_set_atime` (256 * 2.4 = 614.4 ms; the float product
`INTEGRATION_TIME_CONST * INTEGRATION_TIME_MULTIPLIER` is exact in the
rational model and coincides with the IEEE value of `614.4f`). -/
def MAX_INTEGRATION_TIME_ALLOWED : ℚ :=
  (INTEGRATION_TIME_CONST : ℚ) * INTEGRATION_TIME_MULTIPLIER

/-- ATIME register value computed by `tcs3472x_set_atime(integration_time)`:
0 when the request saturates, otherwise the float expression
`INTEGRATION_TIME_CONST - integration_time / INTEGRATION_TIME_MULTIPLIER`
narrowed to `uint8_t`. -/
def set_atime_reg (integration_time : ℚ) : ℕ :=
  if MAX_INTEGRATION_TIME_ALLOWED ≤ integration_time then 0
  else floatToUInt8
    ((INTEGRATION_TIME_CONST : ℚ) - integration_time / INTEGRATION_TIME_MULTIPLIER)

/-- Return value computed by `tcs3472x_set_atime` before the bus write:
700 ms in the saturating branch, otherwise the time re-derived from the
stored register value via `_calc_atime_in_milliseconds`. -/
def set_atime_actual (integration_time : ℚ) : ℚ :=
  if MAX_INTEGRATION_TIME_ALLOWED ≤ integration_time then
    (INTEGRATION_TIME_SPECIAL_CASE : ℚ)
  else _calc_atime_in_milliseconds (set_atime_reg integration_time)

/-- Embedding of `tcs3472x_set_atime`: computes the ATIME register value and
the actual achievable time, frames the ATIME register with repeat addressing,
writes the frame byte followed by the atime byte in one two-byte transaction,
and returns the actual time, or -1 if the write fails. -/
def tcs3472x_set_atime (integration_time : ℚ) (writeOk : Bool) : OpResult ℚ :=
  let cmd := _build_command_register ATIME_REGISTER REPEAT_BYTE
  let send_data := [cmd, set_atime_reg integration_time]
  if writeOk then
    { ret := set_atime_actual integration_time, written := send_data,
      readLens := [], logs := [] }
  else
    { ret := -1, written := send_data, readLens := [],
      logs := ["Failed to set ATIME register."] }

/-- Embedding of `tcs3472x_get_atime`: frames the ATIME register with repeat
addressing, reads one byte; a failed read logs and returns -1; a raw byte of 0
decodes to the special case 700 ms, any other byte through
`_calc_atime_in_milliseconds`. -/
def tcs3472x_get_atime (cmdWriteOk : Bool) (readResult : Option ℕ) : OpResult ℚ :=
  let cw := _write_command_register ATIME_REGISTER REPEAT_BYTE cmdWriteOk
  match readResult with
  | none =>
    { ret := -1, written := [cw.1], readLens := [1],
      logs := cw.2 ++ ["Failed to read ATIME register."] }
  | some a =>
    let atime_reg := a % 256
    { ret :=
        if atime_reg = 0 then (INTEGRATION_TIME_SPECIAL_CASE : ℚ)
        else _calc_atime_in_milliseconds atime_reg,
      written := [cw.1], readLens := [1], logs := cw.2 }

/-- Embedding of `tcs3472x_get_all_colors_data`: frames the clear-data-low
register with auto-increment addressing, issues one 8-byte read whose return
value is discarded, and assembles the four channels low-byte-first from the
(zero-initialized) buffer in fixed order clear, red, green, blue. -/
def tcs3472x_get_all_colors_data (cmdWriteOk : Bool)
    (readResult : Option (List ℕ)) : OpResult (List ℕ) :=
  let cw := _write_command_register CDATAL_REGISTER AUTO_INCREMENT cmdWriteOk
  let data := readBuffer readResult
  { ret := [combineLE (data 0) (data 1), combineLE (data 2) (data 3),
            combineLE (data 4) (data 5), combineLE (data 6) (data 7)]
    written := [cw.1]
    readLens := [8]
    logs := cw.2 }

/-- Embedding of the helper `_get_color_data(reg_address)`: frames the given
data-low register with auto-increment addressing, issues one 2-byte read whose
return value is discarded, and assembles one channel low-byte-first from the
(zero-initialized) buffer. -/
def _get_color_data (reg_address : ℕ) (cmdWriteOk : Bool)
    (readResult : Option (List ℕ)) : OpResult ℕ :=
  let cw := _write_command_register reg_address AUTO_INCREMENT cmdWriteOk
  let data := readBuffer readResult
  { ret := combineLE (data 0) (data 1)
    written := [cw.1]
    readLens := [2]
    logs := cw.2 }

/-- Embedding of `tcs3472x_get_clear_data`. -/
def tcs3472x_get_clear_data : Bool → Option (List ℕ) → OpResult ℕ :=
  _get_color_data CDATAL_REGISTER

/-- Embedding of `tcs3472x_get_red_data`. -/
def tcs3472x_get_red_data : Bool → Option (List ℕ) → OpResult ℕ :=
  _get_color_data RDATAL_REGISTER

/-- Embedding of `tcs3472x_get_green_data`. -/
def tcs3472x_get_green_data : Bool → Option (List ℕ) → OpResult ℕ :=
  _get_color_data GDATAL_REGISTER

/-- Embedding of `tcs3472x_get_blue_data`. -/
def tcs3472x_get_blue_data : Bool → Option (List ℕ) → OpResult ℕ :=
  _get_color_data BDATAL_REGISTER

/-! ### Shared helper lemmas -/

/-- Little-endian assembly of two in-range bytes equals `hi * 256 + lo`. -/
theorem combineLE_eq (lo hi : ℕ) (hlo : lo < 256) (hhi : hi < 256) :
    combineLE lo hi = hi * 256 + lo := by
  unfold combineLE
  rw [Nat.shiftLeft_eq]
  have h8 : (2 : ℕ) ^ 8 = 256 := by norm_num
  have hlo' : lo < 2 ^ 8 := by omega
  have hor : 2 ^ 8 * hi + lo = 2 ^ 8 * hi ||| lo :=
    Nat.mul_add_lt_is_or hlo' hi
  rw [Nat.mul_comm hi (2 ^ 8), ← hor]
  have hlt : 2 ^ 8 * hi + lo < 65536 := by
    have : hi ≤ 255 := by omega
    nlinarith
  rw [Nat.mod_eq_of_lt hlt]

/-! ### Claims -/

/-- C1: for every register address `a` in 0..31 and every transaction type
`t` in the enum {0b00, 0b01, 0b11}, the command byte built by
`_build_command_register(a, t)` has bit 7 set, bits 6-5 equal to `t` and
bits 4-0 equal to `a` (so decoding recovers `a` and `t`); and every driver
operation's first transmitted byte is such a command byte, built from a
documented register address and transaction type. -/
theorem cmd_register_roundtrip :
    (∀ a < 32, ∀ t < 4, t ≠ 2 →
      Nat.testBit (_build_command_register a t) 7 = true ∧
      _build_command_register a t / 32 % 4 = t ∧
      _build_command_register a t % 32 = a) ∧
    (∀ (ib : ℕ) (w w2 : Bool) (r : Option ℕ) (r8 : Option (List ℕ)) (ms : ℚ),
      (tcs3472x_init ib w w2).written.headD 0
          = _build_command_register ENABLE_REGISTER REPEAT_BYTE ∧
      (tcs3472x_get_enable w r).written.headD 0
          = _build_command_register ENABLE_REGISTER REPEAT_BYTE ∧
      (tcs3472x_get_id w r).written.headD 0
          = _build_command_register ID_REGISTER REPEAT_BYTE ∧
      (tcs3472x_set_atime ms w).written.headD 0
          = _build_command_register ATIME_REGISTER REPEAT_BYTE ∧
      (tcs3472x_get_atime w r).written.headD 0
          = _build_command_register ATIME_REGISTER REPEAT_BYTE ∧
      (tcs3472x_get_all_colors_data w r8).written.headD 0
          = _build_command_register CDATAL_REGISTER AUTO_INCREMENT ∧
      (tcs3472x_get_clear_data w r8).written.headD 0
          = _build_command_register CDATAL_REGISTER AUTO_INCREMENT ∧
      (tcs3472x_get_red_data w r8).written.headD 0
          = _build_command_register RDATAL_REGISTER AUTO_INCREMENT ∧
      (tcs3472x_get_green_data w r8).written.headD 0
          = _build_command_register GDATAL_REGISTER AUTO_INCREMENT ∧
      (tcs3472x_get_blue_data w r8).written.headD 0
          = _build_command_register BDATAL_REGISTER AUTO_INCREMENT) := by
  constructor
  · decide
  · intro ib w w2 r r8 ms
    cases r <;> cases r8 <;> cases w <;>
      exact ⟨rfl, rfl, rfl, rfl, rfl, rfl, rfl, rfl, rfl, rfl⟩

/-- Witness for C1 at the concrete input a = 20 (CDATAL), t = 1
(auto-increment). -/
theorem cmd_register_roundtrip_wit :
    Nat.testBit (_build_command_register 20 1) 7 = true ∧
    _build_command_register 20 1 / 32 % 4 = 1 ∧
    _build_command_register 20 1 % 32 = 20 :=
  cmd_register_roundtrip.1 20 (by decide) 1 (by decide) (by decide)

/-- C2: for every 8-byte sequence [c0,c1,r0,r1,g0,g1,b0,b1] returned by the
transport read, `tcs3472x_get_all_colors_data` stores into the output buffer,
in fixed order, clear = c1*256+c0, red = r1*256+r0, green = g1*256+g0,
blue = b1*256+b0 (each channel assembled low byte first), after framing the
clear-data-low register 0x14 with auto-increment addressing and issuing one
8-byte read. -/
theorem get_all_colors_decode (w : Bool) (c0 c1 r0 r1 g0 g1 b0 b1 : ℕ)
    (hc0 : c0 < 256) (hc1 : c1 < 256) (hr0 : r0 < 256) (hr1 : r1 < 256)
    (hg0 : g0 < 256) (hg1 : g1 < 256) (hb0 : b0 < 256) (hb1 : b1 < 256) :
    (tcs3472x_get_all_colors_data w (some [c0, c1, r0, r1, g0, g1, b0, b1])).ret
        = [c1 * 256 + c0, r1 * 256 + r0, g1 * 256 + g0, b1 * 256 + b0] ∧
    (tcs3472x_get_all_colors_data w (some [c0, c1, r0, r1, g0, g1, b0, b1])).written
        = [_build_command_register CDATAL_REGISTER AUTO_INCREMENT] ∧
    (tcs3472x_get_all_colors_data w (some [c0, c1, r0, r1, g0, g1, b0, b1])).readLens
        = [8] := by
  refine ⟨?_, rfl, rfl⟩
  have hret : (tcs3472x_get_all_colors_data w
        (some [c0, c1, r0, r1, g0, g1, b0, b1])).ret
      = [combineLE (c0 % 256) (c1 % 256), combineLE (r0 % 256) (r1 % 256),
         combineLE (g0 % 256) (g1 % 256), combineLE (b0 % 256) (b1 % 256)] := rfl
  rw [hret, Nat.mod_eq_of_lt hc0, Nat.mod_eq_of_lt hc1, Nat.mod_eq_of_lt hr0,
    Nat.mod_eq_of_lt hr1, Nat.mod_eq_of_lt hg0, Nat.mod_eq_of_lt hg1,
    Nat.mod_eq_of_lt hb0, Nat.mod_eq_of_lt hb1,
    combineLE_eq c0 c1 hc0 hc1, combineLE_eq r0 r1 hr0 hr1,
    combineLE_eq g0 g1 hg0 hg1, combineLE_eq b0 b1 hb0 hb1]

/-- Witness for C2 at the spec's end-to-end scenario bytes
[0x10,0x00,0x20,0x00,0x30,0x00,0x40,0x00], which decode to clear = 16,
red = 32, green = 48, blue = 64. -/
theorem get_all_colors_decode_wit :
    (tcs3472x_get_all_colors_data true (some [16, 0, 32, 0, 48, 0, 64, 0])).ret
        = [0 * 256 + 16, 0 * 256 + 32, 0 * 256 + 48, 0 * 256 + 64] ∧
    (tcs3472x_get_all_colors_data true (some [16, 0, 32, 0, 48, 0, 64, 0])).written
        = [_build_command_register CDATAL_REGISTER AUTO_INCREMENT] ∧
    (tcs3472x_get_all_colors_data true (some [16, 0, 32, 0, 48, 0, 64, 0])).readLens
        = [8] :=
  get_all_colors_decode true 16 0 32 0 48 0 64 0 (by decide) (by decide)
    (by decide) (by decide) (by decide) (by decide) (by decide) (by decide)

/-- C9: for every fixed raw byte pair at a channel's data registers, each
single-channel getter (which frames its channel's data-low register with
auto-increment, reads 2 bytes, and decodes one little-endian 16-bit value)
returns the same value as the corresponding field decoded by
`tcs3472x_get_all_colors_data` from the same bytes at that channel's
position. -/
theorem single_channel_getters_refine (w w8 : Bool)
    (c0 c1 r0 r1 g0 g1 b0 b1 : ℕ) :
    ((tcs3472x_get_clear_data w (some [c0, c1])).ret
        = (tcs3472x_get_all_colors_data w8
            (some [c0, c1, r0, r1, g0, g1, b0, b1])).ret.getD 0 0 ∧
     (tcs3472x_get_red_data w (some [r0, r1])).ret
        = (tcs3472x_get_all_colors_data w8
            (some [c0, c1, r0, r1, g0, g1, b0, b1])).ret.getD 1 0 ∧
     (tcs3472x_get_green_data w (some [g0, g1])).ret
        = (tcs3472x_get_all_colors_data w8
            (some [c0, c1, r0, r1, g0, g1, b0, b1])).ret.getD 2 0 ∧
     (tcs3472x_get_blue_data w (some [b0, b1])).ret
        = (tcs3472x_get_all_colors_data w8
            (some [c0, c1, r0, r1, g0, g1, b0, b1])).ret.getD 3 0) ∧
    ((tcs3472x_get_clear_data w (some [c0, c1])).written
        = [_build_command_register CDATAL_REGISTER AUTO_INCREMENT] ∧
     (tcs3472x_get_red_data w (some [r0, r1])).written
        = [_build_command_register RDATAL_REGISTER AUTO_INCREMENT] ∧
     (tcs3472x_get_green_data w (some [g0, g1])).written
        = [_build_command_register GDATAL_REGISTER AUTO_INCREMENT] ∧
     (tcs3472x_get_blue_data w (some [b0, b1])).written
        = [_build_command_register BDATAL_REGISTER AUTO_INCREMENT]) ∧
    ((tcs3472x_get_clear_data w (some [c0, c1])).readLens = [2] ∧
     (tcs3472x_get_red_data w (some [r0, r1])).readLens = [2] ∧
     (tcs3472x_get_green_data w (some [g0, g1])).readLens = [2] ∧
     (tcs3472x_get_blue_data w (some [b0, b1])).readLens = [2]) :=
  ⟨⟨rfl, rfl, rfl, rfl⟩, ⟨rfl, rfl, rfl, rfl⟩, ⟨rfl, rfl, rfl, rfl⟩⟩

/-- C3 counterexample: at the concrete requested time 613 ms (inside the
claimed interval (0, 614.4)), `tcs3472x_set_atime` computes and writes ATIME
register value 0, so a subsequent `tcs3472x_get_atime` returns 700 ms, which
is not within one register step (2.4 ms) of 613. -/
theorem atime_roundtrip_cex :
    (0:ℚ) < 613 ∧ (613:ℚ) < 614.4 ∧
    (tcs3472x_set_atime 613 true).written.getD 1 0 = 0 ∧
    0 ≤ (tcs3472x_set_atime 613 true).ret ∧
    (tcs3472x_get_atime true
        (some ((tcs3472x_set_atime 613 true).written.getD 1 0))).ret = 700 ∧
    ¬ |(tcs3472x_get_atime true
        (some ((tcs3472x_set_atime 613 true).written.getD 1 0))).ret - 613| ≤ 2.4 := by
  norm_num [tcs3472x_set_atime, tcs3472x_get_atime, set_atime_reg, set_atime_actual,
    floatToUInt8, truncTowardZero, MAX_INTEGRATION_TIME_ALLOWED, INTEGRATION_TIME_CONST,
    INTEGRATION_TIME_MULTIPLIER, INTEGRATION_TIME_SPECIAL_CASE, _calc_atime_in_milliseconds,
    _write_command_register, _build_command_register, ATIME_REGISTER, REPEAT_BYTE]

/-- C3 amended: for every requested integration time ms in (0, 612.0]
(requests in (612.0, 614.4) truncate to register 0, which decodes to 700 ms),
calling `tcs3472x_get_atime` after a successful `tcs3472x_set_atime ms`
returns a value within one register step (2.4 ms) of ms. -/
theorem atime_roundtrip_amended (ms : ℚ) (h1 : 0 < ms) (h2 : ms ≤ 612) :
    |(tcs3472x_get_atime true
        (some ((tcs3472x_set_atime ms true).written.getD 1 0))).ret - ms| ≤ 2.4 := by
  have hw : (tcs3472x_set_atime ms true).written.getD 1 0 = set_atime_reg ms := rfl
  rw [hw]
  obtain ⟨x, hxdef⟩ :
      ∃ y : ℚ, y = (INTEGRATION_TIME_CONST : ℚ) - ms / INTEGRATION_TIME_MULTIPLIER :=
    ⟨_, rfl⟩
  have hxval : x = 256 - ms / 2.4 := by
    rw [hxdef]; norm_num [INTEGRATION_TIME_CONST, INTEGRATION_TIME_MULTIPLIER]
  have hx1 : 1 ≤ x := by
    rw [hxval]
    have h255 : ms / 2.4 ≤ 255 := by
      rw [div_le_iff₀ (by norm_num : (0:ℚ) < 2.4)]; linarith
    linarith
  have hx2 : x < 256 := by
    rw [hxval]
    have hpos : 0 < ms / 2.4 := by positivity
    linarith
  have hnosat : ¬ MAX_INTEGRATION_TIME_ALLOWED ≤ ms := by
    have hmax : MAX_INTEGRATION_TIME_ALLOWED = 614.4 := by
      norm_num [MAX_INTEGRATION_TIME_ALLOWED, INTEGRATION_TIME_CONST,
        INTEGRATION_TIME_MULTIPLIER]
    rw [hmax]; intro hle; linarith
  have hreg : set_atime_reg ms = floatToUInt8 x := by
    rw [set_atime_reg, if_neg hnosat, ← hxdef]
  have htrunc : truncTowardZero x = ⌊x⌋ := by
    rw [truncTowardZero, if_neg (by linarith : ¬ x < 0)]
  have hfl1 : 1 ≤ ⌊x⌋ := Int.le_floor.mpr (by exact_mod_cast hx1)
  have hfl2 : ⌊x⌋ ≤ 255 := by
    have hlt : ⌊x⌋ < 256 := Int.floor_lt.mpr (by exact_mod_cast hx2)
    omega
  have hregval : set_atime_reg ms = ⌊x⌋.toNat := by
    rw [hreg, floatToUInt8, htrunc, Nat.mod_eq_of_lt (by omega)]
  have hregpos : set_atime_reg ms ≠ 0 := by
    rw [hregval]; omega
  have hreglt : set_atime_reg ms < 256 := by
    rw [hregval]; omega
  have hget : (tcs3472x_get_atime true (some (set_atime_reg ms))).ret
      = _calc_atime_in_milliseconds (set_atime_reg ms) := by
    show (if set_atime_reg ms % 256 = 0 then ((INTEGRATION_TIME_SPECIAL_CASE : ℕ) : ℚ)
          else _calc_atime_in_milliseconds (set_atime_reg ms % 256))
        = _calc_atime_in_milliseconds (set_atime_reg ms)
    rw [Nat.mod_eq_of_lt hreglt, if_neg hregpos]
  rw [hget]
  have hcast : ((set_atime_reg ms : ℤ) : ℚ) = (⌊x⌋ : ℚ) := by
    rw [hregval]
    exact_mod_cast congrArg (fun z : ℤ => (z : ℚ)) (Int.toNat_of_nonneg (by omega))
  have hcalc : _calc_atime_in_milliseconds (set_atime_reg ms)
      = (256 - (⌊x⌋ : ℚ)) * 2.4 := by
    rw [_calc_atime_in_milliseconds]
    push_cast
    push_cast at hcast
    rw [hcast]
    norm_num [INTEGRATION_TIME_CONST, INTEGRATION_TIME_MULTIPLIER]
  rw [hcalc]
  have hms : ms = (256 - x) * 2.4 := by
    rw [hxval]
    field_simp
  have hfl_le : (⌊x⌋ : ℚ) ≤ x := Int.floor_le x
  have hfl_gt : x < (⌊x⌋ : ℚ) + 1 := Int.lt_floor_add_one x
  have key : (256 - (⌊x⌋:ℚ)) * 2.4 - ms = (x - (⌊x⌋:ℚ)) * 2.4 := by
    rw [hms]; ring
  rw [abs_le, key]
  have h24 : (2.4 : ℚ) = 12 / 5 := by norm_num
  rw [h24]
  constructor
  · nlinarith
  · nlinarith

/-- Witness for the amended C3 at the concrete request ms = 100 (set writes
register 214, get returns 100.8, within 2.4 of 100). -/
theorem atime_roundtrip_amended_wit :
    (0:ℚ) < 100 ∧ (100:ℚ) ≤ 612 ∧
    |(tcs3472x_get_atime true
        (some ((tcs3472x_set_atime 100 true).written.getD 1 0))).ret - 100| ≤ 2.4 :=
  ⟨by norm_num, by norm_num, atime_roundtrip_amended 100 (by norm_num) (by norm_num)⟩

/-- C4: for every requested integration time ms with ms ≥ 614.4,
`tcs3472x_set_atime ms` writes register value 0 to ATIME (after the command
frame byte) and returns 700.0 ms: it saturates instead of overflowing the
8-bit field. -/
theorem set_atime_saturation (ms : ℚ) (h : 614.4 ≤ ms) :
    (tcs3472x_set_atime ms true).written
        = [_build_command_register ATIME_REGISTER REPEAT_BYTE, 0] ∧
    (tcs3472x_set_atime ms true).ret = 700 := by
  have hmax : MAX_INTEGRATION_TIME_ALLOWED ≤ ms := by
    have h1 : MAX_INTEGRATION_TIME_ALLOWED = 614.4 := by
      norm_num [MAX_INTEGRATION_TIME_ALLOWED, INTEGRATION_TIME_CONST,
        INTEGRATION_TIME_MULTIPLIER]
    rw [h1]; exact h
  constructor
  · show [_build_command_register ATIME_REGISTER REPEAT_BYTE, set_atime_reg ms]
        = [_build_command_register ATIME_REGISTER REPEAT_BYTE, 0]
    rw [set_atime_reg, if_pos hmax]
  · show set_atime_actual ms = 700
    rw [set_atime_actual, if_pos hmax]
    norm_num [INTEGRATION_TIME_SPECIAL_CASE]

/-- Witness for C4 at the boundary request ms = 614.4. -/
theorem set_atime_saturation_wit :
    (614.4:ℚ) ≤ 614.4 ∧
    ((tcs3472x_set_atime 614.4 true).written
        = [_build_command_register ATIME_REGISTER REPEAT_BYTE, 0] ∧
     (tcs3472x_set_atime 614.4 true).ret = 700) :=
  ⟨by norm_num, set_atime_saturation 614.4 (by norm_num)⟩

/-- C5: for every raw ATIME register byte a read by `tcs3472x_get_atime`, the
function returns 700.0 ms when a = 0 (regardless of the formula) and
(256 - a) * 2.4 ms otherwise. -/
theorem get_atime_decode (w : Bool) (a : ℕ) (ha : a < 256) :
    (tcs3472x_get_atime w (some a)).ret
      = if a = 0 then 700 else ((256 : ℚ) - (a : ℚ)) * 2.4 := by
  have hmod : a % 256 = a := Nat.mod_eq_of_lt ha
  show (if a % 256 = 0 then ((INTEGRATION_TIME_SPECIAL_CASE : ℕ) : ℚ)
        else _calc_atime_in_milliseconds (a % 256))
      = if a = 0 then 700 else ((256 : ℚ) - (a : ℚ)) * 2.4
  rw [hmod]
  by_cases h0 : a = 0
  · rw [if_pos h0, if_pos h0]
    norm_num [INTEGRATION_TIME_SPECIAL_CASE]
  · rw [if_neg h0, if_neg h0, _calc_atime_in_milliseconds]
    push_cast
    norm_num [INTEGRATION_TIME_CONST, INTEGRATION_TIME_MULTIPLIER]

/-- Witness for C5 at the concrete raw bytes a = 0 (special case: 700 ms) and
a = 5 (formula: (256 - 5) * 2.4 = 602.4 ms). -/
theorem get_atime_decode_wit :
    ((0:ℕ) < 256 ∧
     (tcs3472x_get_atime true (some 0)).ret
        = if (0:ℕ) = 0 then 700 else ((256 : ℚ) - ((0:ℕ) : ℚ)) * 2.4) ∧
    ((5:ℕ) < 256 ∧
     (tcs3472x_get_atime true (some 5)).ret
        = if (5:ℕ) = 0 then 700 else ((256 : ℚ) - ((5:ℕ) : ℚ)) * 2.4) :=
  ⟨⟨by decide, get_atime_decode true 0 (by decide)⟩,
   ⟨by decide, get_atime_decode true 5 (by decide)⟩⟩

/-- C6 counterexample: `tcs3472x_set_atime 100` computes (by truncation of
256 - 100/2.4 = 214.33) register value 214, not the claimed 213, and the
subsequent `tcs3472x_get_atime` returns 100.8 ms, not the claimed 103.2. -/
theorem set_atime_100_cex :
    (tcs3472x_set_atime 100 true).written.getD 1 0 = 214 ∧
    (tcs3472x_set_atime 100 true).written.getD 1 0 ≠ 213 ∧
    (tcs3472x_get_atime true
        (some ((tcs3472x_set_atime 100 true).written.getD 1 0))).ret = 100.8 ∧
    (tcs3472x_get_atime true
        (some ((tcs3472x_set_atime 100 true).written.getD 1 0))).ret ≠ 103.2 := by
  norm_num [tcs3472x_set_atime, tcs3472x_get_atime, set_atime_reg, set_atime_actual,
    floatToUInt8, truncTowardZero, MAX_INTEGRATION_TIME_ALLOWED, INTEGRATION_TIME_CONST,
    INTEGRATION_TIME_MULTIPLIER, INTEGRATION_TIME_SPECIAL_CASE, _calc_atime_in_milliseconds,
    _write_command_register, _build_command_register, ATIME_REGISTER, REPEAT_BYTE]
  have h : Int.toNat (214 : ℤ) = 214 := rfl
  rw [h]
  norm_num

/-- C6 amended: calling `tcs3472x_set_atime 100.0` computes (by truncation)
the register value atime = 214 and returns 100.8, and a subsequent
`tcs3472x_get_atime` returns (256 - 214) * 2.4 = 100.8 ms. -/
theorem set_atime_100_amended :
    (tcs3472x_set_atime 100 true).written.getD 1 0 = 214 ∧
    (tcs3472x_set_atime 100 true).ret = 100.8 ∧
    (tcs3472x_get_atime true (some 214)).ret = ((256 : ℚ) - 214) * 2.4 ∧
    ((256 : ℚ) - 214) * 2.4 = 100.8 := by
  refine ⟨?_, ?_, ?_, by norm_num⟩
  · norm_num [tcs3472x_set_atime, set_atime_reg, floatToUInt8, truncTowardZero,
      MAX_INTEGRATION_TIME_ALLOWED, INTEGRATION_TIME_CONST, INTEGRATION_TIME_MULTIPLIER]
    decide
  · norm_num [tcs3472x_set_atime, set_atime_actual, set_atime_reg, floatToUInt8,
      truncTowardZero, MAX_INTEGRATION_TIME_ALLOWED, INTEGRATION_TIME_CONST,
      INTEGRATION_TIME_MULTIPLIER, _calc_atime_in_milliseconds]
  · norm_num [tcs3472x_get_atime, _calc_atime_in_milliseconds, INTEGRATION_TIME_CONST,
      INTEGRATION_TIME_MULTIPLIER, INTEGRATION_TIME_SPECIAL_CASE]

/-- C7: on transport failure each operation returns its defined sentinel and
issues only its single transaction: `tcs3472x_get_enable` and
`tcs3472x_get_id` return 0 when their 1-byte read fails, and
`tcs3472x_set_atime` and `tcs3472x_get_atime` return the negative value -1
when their transport write or read fails. -/
theorem transport_failure_sentinels :
    (∀ w : Bool, (tcs3472x_get_enable w none).ret = 0 ∧
      (tcs3472x_get_enable w none).readLens = [1]) ∧
    (∀ w : Bool, (tcs3472x_get_id w none).ret = 0 ∧
      (tcs3472x_get_id w none).readLens = [1]) ∧
    (∀ ms : ℚ, (tcs3472x_set_atime ms false).ret = -1 ∧
      (tcs3472x_set_atime ms false).ret < 0 ∧
      (tcs3472x_set_atime ms false).readLens = []) ∧
    (∀ w : Bool, (tcs3472x_get_atime w none).ret = -1 ∧
      (tcs3472x_get_atime w none).ret < 0 ∧
      (tcs3472x_get_atime w none).readLens = [1]) := by
  refine ⟨fun w => ⟨rfl, rfl⟩, fun w => ⟨rfl, rfl⟩,
    fun ms => ⟨rfl, ?_, rfl⟩, fun w => ⟨rfl, ?_, rfl⟩⟩
  · rw [show (tcs3472x_set_atime ms false).ret = -1 from rfl]; norm_num
  · rw [show (tcs3472x_get_atime w none).ret = -1 from rfl]; norm_num

/-- C8: `tcs3472x_init` frames the enable register 0x00 with repeat
addressing and writes an enable byte whose power-on (bit 0), RGBC-enable
(bit 1), wait-enable (bit 3) and RGBC-interrupt-enable (bit 4) bits are set,
but the local `enable_register_t` union is never zero-initialized, so the
reserved bits (bit 2 and bits 5-7) keep their indeterminate initial stack
value: with initial stack content 0xFF the byte written is 0xFF (reserved
bits set); only with initial content 0 is the byte the claimed 0x1B = 27
with reserved bits zero. -/
theorem init_reserved_bits_bug :
    (tcs3472x_init 255 true true).written
        = [_build_command_register ENABLE_REGISTER REPEAT_BYTE, 255] ∧
    Nat.testBit ((tcs3472x_init 255 true true).written.getD 1 0) 2 = true ∧
    Nat.testBit ((tcs3472x_init 255 true true).written.getD 1 0) 5 = true ∧
    Nat.testBit ((tcs3472x_init 255 true true).written.getD 1 0) 6 = true ∧
    Nat.testBit ((tcs3472x_init 255 true true).written.getD 1 0) 7 = true ∧
    (tcs3472x_init 0 true true).written
        = [_build_command_register ENABLE_REGISTER REPEAT_BYTE, 27] ∧
    (Nat.testBit 27 0 = true ∧ Nat.testBit 27 1 = true ∧ Nat.testBit 27 3 = true ∧
     Nat.testBit 27 4 = true ∧ Nat.testBit 27 2 = false ∧ Nat.testBit 27 5 = false ∧
     Nat.testBit 27 6 = false ∧ Nat.testBit 27 7 = false) := by
  decide

/-- C10: if the transport read fails in `tcs3472x_get_all_colors_data` or in
any single-channel getter, the failure is ignored: the result is decoded from
the zero-initialized local buffer, so the output is four zero channels (resp.
a zero channel value), no driver-level error is logged for the read, and the
whole operation result is identical to that of a successful all-zero read
(no distinguishable sentinel). -/
theorem color_read_failure_ignored :
    (tcs3472x_get_all_colors_data true none).ret = [0, 0, 0, 0] ∧
    (tcs3472x_get_all_colors_data true none).logs = [] ∧
    tcs3472x_get_all_colors_data true none
        = tcs3472x_get_all_colors_data true (some [0, 0, 0, 0, 0, 0, 0, 0]) ∧
    (tcs3472x_get_clear_data true none).ret = 0 ∧
    (tcs3472x_get_red_data true none).ret = 0 ∧
    (tcs3472x_get_green_data true none).ret = 0 ∧
    (tcs3472x_get_blue_data true none).ret = 0 ∧
    (tcs3472x_get_clear_data true none).logs = [] ∧
    tcs3472x_get_clear_data true none = tcs3472x_get_clear_data true (some [0, 0]) :=
  ⟨rfl, rfl, rfl, rfl, rfl, rfl, rfl, rfl, rfl⟩
